import Mathlib

/-!
A verification development for the TargetGenerator repository.

The embedding models `pdf_gen.py` (class `Target`).  Real-valued arithmetic of the
Python code is modelled over `ℝ`; Python's `math.floor` is `Int.floor`, float floor
division `x // y` is `fdiv`, `math.radians d` is `d * (pi / 180)`, and
`reportlab.lib.units.inch` is the constant `72`.  String-producing code
(`str.replace`, filename assembly, the title f-string) is modelled over `String`,
taking the Python `str(...)` renderings of the numeric parameters as inputs;
stringification of floats itself (`str`, `format(x, ".3f")`) and the canvas's
`stringWidth` are kept as abstract function parameters.  The drawing calls issued
to the reportlab canvas are reified as a `List DrawCmd`; `Target.create_target`
returns the command list, whether `pdf.save()` was reached (Python raises
`ZeroDivisionError` at the `available_width / grid_size` division when the cell
size is zero, so `save` is not reached there), and the Python return value of the
method (which is `None`).
-/

namespace TargetGen

/-! ### Naming layer (from `Target._filename`, `Target._flask_filename`, `Target.__init__`) -/

/-- Python's single-character `s.replace(".", "-")` acts on each character. -/
def dotDash (c : Char) : Char := if c = '.' then '-' else c

/-- `str.replace(".", "-")` from `_filename` / `_flask_filename`. -/
def pyReplaceDot (s : String) : String := String.mk (s.data.map dotDash)

/-- `Target._filename`: `str(yards).replace(".","-") + "yards_" + str(MOA).replace(".","-") + "moa.pdf"`.
The two arguments are the Python `str(...)` renderings of `yards` and `MOA`. -/
def filename (yardsStr moaStr : String) : String :=
  pyReplaceDot yardsStr ++ "yards_" ++ pyReplaceDot moaStr ++ "moa.pdf"

/-- `Target._flask_filename`: the same name under the `static/` directory. -/
def flask_filename (yardsStr moaStr : String) : String :=
  "static/" ++ pyReplaceDot yardsStr ++ "yards_" ++ pyReplaceDot moaStr ++ "moa.pdf"

/-- The `filename` attribute set in `Target.__init__`:
`kwargs.get("filename", self._flask_filename() if self.flask else self._filename())`. -/
def initFilename (flask : Bool) (explicit : Option String) (yardsStr moaStr : String) : String :=
  explicit.getD (if flask then flask_filename yardsStr moaStr else filename yardsStr moaStr)

/-- Body of a decimal rendering: a digit followed by digits and at most dots. -/
def numBody : List Char → Bool
  | [] => false
  | d :: rest => d.isDigit && rest.all fun c => c.isDigit || c = '.'

/-- Shape of a simple (exponent-free) decimal rendering, on the character list:
an optional leading minus sign, then a digit, then digits and dots. -/
def isNumList : List Char → Bool
  | [] => false
  | c :: rest => if c = '-' then numBody rest else numBody (c :: rest)

/-- Characterizes a simple (exponent-free) Python decimal rendering of a number.
All `str(int)` and non-exponent `str(float)` outputs have this shape. -/
def isPyNumRepr (s : String) : Bool := isNumList s.data

/-- Numeric value of a digit string (most significant first). -/
def digitsToNat (l : List Char) : ℕ := l.foldl (fun n c => 10 * n + (c.toNat - 48)) 0

/-- Numeric value denoted by a simple decimal rendering, as a rational. -/
def decVal (s : String) : ℚ :=
  let body := if s.data.head? = some '-' then s.data.tail else s.data
  let ip := body.takeWhile fun c => c ≠ '.'
  let fp := (body.dropWhile fun c => c ≠ '.').drop 1
  let mag : ℚ := (digitsToNat ip : ℚ) + (digitsToNat fp : ℚ) / 10 ^ fp.length
  if s.data.head? = some '-' then -mag else mag

/-! ### Geometry layer (from `Target.__init__`, `_minute_of_angle`, `create_target`) -/

noncomputable section

/-- `reportlab.lib.units.inch` (points per inch). -/
def inch : ℝ := 72

/-- Python's `math.radians`. -/
def radians (d : ℝ) : ℝ := d * (Real.pi / 180)

/-- The parameters stored by `Target.__init__` (defaults as in the `kwargs.get` calls).
`page_width`/`page_height` are the two components of the Python `page_size` tuple. -/
structure Target where
  yards : ℝ := 100
  MOA : ℝ := 0.25
  diagonal_thickness : ℝ := 0.125
  scope_adjustment_text : Bool := true
  page_width : ℝ := 8.5 * inch
  page_height : ℝ := 11 * inch
  margin : ℝ := 0.5 * inch

/-- `Target._minute_of_angle`:
`moa_per_degree = MOA / 60.0; inches = yards * 3 * 12;`
`moa_inches = inches * radians(moa_per_degree / 2) * 2`. -/
def Target.minute_of_angle (t : Target) : ℝ :=
  let moa_per_degree := t.MOA / 60
  let inches := t.yards * 3 * 12
  inches * radians (moa_per_degree / 2) * 2

/-- `available_width = (page_size[0] - 2 * margin) / inch` (in inches). -/
def available_width (page_width margin : ℝ) : ℝ := (page_width - 2 * margin) / inch

/-- `available_height = (page_size[1] - 2 * margin) / inch` (in inches). -/
def available_height (page_height margin : ℝ) : ℝ := (page_height - 2 * margin) / inch

/-- Python float floor division `x // y`. -/
def fdiv (x y : ℝ) : ℝ := ((⌊x / y⌋ : ℤ) : ℝ)

/-- `num_rows = floor(((available_width / grid_size) // 2) * 2)`. -/
def num_rows (page_width margin grid_size : ℝ) : ℤ :=
  ⌊fdiv (available_width page_width margin / grid_size) 2 * 2⌋

/-- `num_cols = num_rows`. -/
def num_cols (page_width margin grid_size : ℝ) : ℤ := num_rows page_width margin grid_size

/-- `grid_width = num_cols * grid_size` (in inches). -/
def grid_width (page_width margin grid_size : ℝ) : ℝ :=
  (num_cols page_width margin grid_size : ℝ) * grid_size

/-- `grid_height = num_rows * grid_size` (in inches; the row count is width-derived). -/
def grid_height (page_width margin grid_size : ℝ) : ℝ :=
  (num_rows page_width margin grid_size : ℝ) * grid_size

/-- `x_start = margin + (available_width * inch - grid_width * inch) / 2`. -/
def x_start (page_width margin grid_size : ℝ) : ℝ :=
  margin +
    (available_width page_width margin * inch - grid_width page_width margin grid_size * inch) / 2

/-- `y_start = margin + (available_height * inch - grid_height * inch) / 2`. -/
def y_start (page_width page_height margin grid_size : ℝ) : ℝ :=
  margin +
    (available_height page_height margin * inch -
      grid_height page_width margin grid_size * inch) / 2

/-- `x_center = margin + available_width / 2 * inch`. -/
def x_center (page_width margin : ℝ) : ℝ := margin + available_width page_width margin / 2 * inch

/-- `y_center = margin + available_height / 2 * inch`. -/
def y_center (page_height margin : ℝ) : ℝ :=
  margin + available_height page_height margin / 2 * inch

def Target.grid_size (t : Target) : ℝ := t.minute_of_angle

def Target.available_width (t : Target) : ℝ := TargetGen.available_width t.page_width t.margin

def Target.available_height (t : Target) : ℝ := TargetGen.available_height t.page_height t.margin

def Target.num_rows (t : Target) : ℤ := TargetGen.num_rows t.page_width t.margin t.grid_size

def Target.num_cols (t : Target) : ℤ := TargetGen.num_cols t.page_width t.margin t.grid_size

def Target.grid_width (t : Target) : ℝ := TargetGen.grid_width t.page_width t.margin t.grid_size

def Target.grid_height (t : Target) : ℝ := TargetGen.grid_height t.page_width t.margin t.grid_size

def Target.x_start (t : Target) : ℝ := TargetGen.x_start t.page_width t.margin t.grid_size

def Target.y_start (t : Target) : ℝ :=
  TargetGen.y_start t.page_width t.page_height t.margin t.grid_size

def Target.x_center (t : Target) : ℝ := TargetGen.x_center t.page_width t.margin

def Target.y_center (t : Target) : ℝ := TargetGen.y_center t.page_height t.margin

/-- The drawing/metadata calls `create_target` issues on the reportlab canvas. -/
inductive DrawCmd where
  | setTitle (title : String)
  | setStrokeColor (color : String)
  | setLineWidth (w : ℝ)
  | setLineCap (cap : ℕ)
  | setFillColor (color : String)
  | setFont (font : String) (size : ℝ)
  | drawString (x y : ℝ) (text : String)
  | line (x1 y1 x2 y2 : ℝ)
  | save

/-- `Target._draw_centered_text`: sets the font and fill color, then draws the text at
`(x - stringWidth(text, font, font_size) / 2, y - font_size / 3)`.
`sw` abstracts `canvas.stringWidth`. -/
def draw_centered_text (sw : String → String → ℝ → ℝ) (text : String) (x y : ℝ)
    (font : String) (font_size : ℝ) (font_color : String) : List DrawCmd :=
  [DrawCmd.setFont font font_size, DrawCmd.setFillColor font_color,
   DrawCmd.drawString (x - sw text font font_size / 2) (y - font_size / 3) text]

/-- Python `int(x)` on a float: truncation toward zero. -/
def pyTrunc (x : ℝ) : ℤ := if 0 ≤ x then ⌊x⌋ else ⌈x⌉

/-- The PDF title: `f"Target - {int(self.yards)} yards - {self.MOA} MOA per click"`.
`pyStr` abstracts Python `str` on floats. -/
def titleStr (pyStr : ℝ → String) (t : Target) : String :=
  "Target - " ++ toString (pyTrunc t.yards) ++ " yards - " ++ pyStr t.MOA ++ " MOA per click"

/-- The caption: `f"{self.MOA} MOA grid ({grid_size:.3f} in) at {self.yards} yards"`.
`fmt3` abstracts the `.3f` formatting. -/
def captionText (pyStr fmt3 : ℝ → String) (t : Target) : String :=
  pyStr t.MOA ++ " MOA grid (" ++ fmt3 t.minute_of_angle ++ " in) at " ++ pyStr t.yards ++ " yards"

/-- Commands issued before the `available_width / grid_size` division (title, default
stroke state, caption): the portion of `create_target` that runs even when the
division then raises `ZeroDivisionError`. -/
def preCmds (sw : String → String → ℝ → ℝ) (pyStr fmt3 : ℝ → String) (t : Target) :
    List DrawCmd :=
  [DrawCmd.setTitle (titleStr pyStr t), DrawCmd.setStrokeColor "black", DrawCmd.setLineWidth 1,
   DrawCmd.setLineCap 2, DrawCmd.setFillColor "black", DrawCmd.setFont "Helvetica" 12] ++
  draw_centered_text sw (captionText pyStr fmt3 t) (t.page_width / 2) (0.5 * inch)
    "Helvetica" 12 "black"

/-- The gray quadrant divider lines (drawn when `scope_adjustment_text` is set). -/
def quadCmds (t : Target) : List DrawCmd :=
  [DrawCmd.setStrokeColor "gray", DrawCmd.setLineWidth 5,
   DrawCmd.line t.x_center t.y_start t.x_center (t.y_start + t.grid_height * inch),
   DrawCmd.line t.x_start t.y_center (t.x_start + t.grid_width * inch) t.y_center,
   DrawCmd.setStrokeColor "black", DrawCmd.setLineWidth 1]

/-- The horizontal grid lines: `for i in range(num_rows + 1)`. -/
def hLines (page_width page_height margin grid_size : ℝ) : List DrawCmd :=
  (List.range (num_rows page_width margin grid_size + 1).toNat).map fun i =>
    DrawCmd.line (x_start page_width margin grid_size)
      (y_start page_width page_height margin grid_size + (i : ℝ) * grid_size * inch)
      (x_start page_width margin grid_size + grid_width page_width margin grid_size * inch)
      (y_start page_width page_height margin grid_size + (i : ℝ) * grid_size * inch)

/-- The vertical grid lines: `for i in range(num_cols + 1)`. -/
def vLines (page_width page_height margin grid_size : ℝ) : List DrawCmd :=
  (List.range (num_cols page_width margin grid_size + 1).toNat).map fun i =>
    DrawCmd.line (x_start page_width margin grid_size + (i : ℝ) * grid_size * inch)
      (y_start page_width page_height margin grid_size)
      (x_start page_width margin grid_size + (i : ℝ) * grid_size * inch)
      (y_start page_width page_height margin grid_size +
        grid_height page_width margin grid_size * inch)

/-- The two diagonals, at stroke width `diagonal_thickness * 72`. -/
def diagCmds (t : Target) : List DrawCmd :=
  [DrawCmd.setLineWidth (t.diagonal_thickness * 72),
   DrawCmd.line t.x_start t.y_start (t.x_start + t.grid_width * inch)
     (t.y_start + t.grid_height * inch),
   DrawCmd.line (t.x_start + t.grid_width * inch) t.y_start t.x_start
     (t.y_start + t.grid_height * inch)]

/-- The four scope-adjustment labels, drawn via `_draw_centered_text` at font size 72
in gray, at `x_center ∓ (x_center - x_start)/2`, `y_center ∓ (y_center - y_start)/2`. -/
def labelCmds (sw : String → String → ℝ → ℝ) (t : Target) : List DrawCmd :=
  draw_centered_text sw "R/U" (t.x_center - (t.x_center - t.x_start) / 2)
    (t.y_center - (t.y_center - t.y_start) / 2) "Helvetica" 72 "gray" ++
  draw_centered_text sw "R/D" (t.x_center - (t.x_center - t.x_start) / 2)
    (t.y_center + (t.y_center - t.y_start) / 2) "Helvetica" 72 "gray" ++
  draw_centered_text sw "L/U" (t.x_center + (t.x_center - t.x_start) / 2)
    (t.y_center - (t.y_center - t.y_start) / 2) "Helvetica" 72 "gray" ++
  draw_centered_text sw "L/D" (t.x_center + (t.x_center - t.x_start) / 2)
    (t.y_center + (t.y_center - t.y_start) / 2) "Helvetica" 72 "gray"

/-- Outcome of a `create_target` call: the canvas calls issued, whether `pdf.save()`
was reached, and the method's Python return value (the method is annotated
`-> None` and has no return statement). -/
structure RenderResult where
  cmds : List DrawCmd
  saved : Bool
  ret : Option String

/-- `Target.create_target`.  When the cell size is zero the Python float division
`available_width / grid_size` raises `ZeroDivisionError`: only the title, stroke
setup and caption have been issued and `pdf.save()` is never reached. -/
def Target.create_target (sw : String → String → ℝ → ℝ) (pyStr fmt3 : ℝ → String)
    (t : Target) : RenderResult :=
  if t.minute_of_angle = 0 then
    ⟨preCmds sw pyStr fmt3 t, false, none⟩
  else
    ⟨preCmds sw pyStr fmt3 t ++
      (if t.scope_adjustment_text then quadCmds t else []) ++
      hLines t.page_width t.page_height t.margin t.minute_of_angle ++
      vLines t.page_width t.page_height t.margin t.minute_of_angle ++
      diagCmds t ++
      (if t.scope_adjustment_text then labelCmds sw t else []) ++
      [DrawCmd.save],
     true, none⟩

/-- The spec's §8 scenario: `distance=100, angularIncrement=0.25, diagonalThickness=0.125,`
`showQuadrantOverlay=true, pageWidth=612, pageHeight=792, margin=36`. -/
def scenarioT : Target := ⟨100, 0.25, 0.125, true, 8.5 * inch, 11 * inch, 0.5 * inch⟩

/-- A target with negative distance (and otherwise default parameters). -/
def tNeg : Target := ⟨-1, 0.25, 0.125, true, 8.5 * inch, 11 * inch, 0.5 * inch⟩

/-- A target with zero distance (and otherwise default parameters). -/
def tZero : Target := ⟨0, 0.25, 0.125, true, 8.5 * inch, 11 * inch, 0.5 * inch⟩

/-- A target whose cell size (2000π inches) exceeds the printable width. -/
def tBig : Target := ⟨10000, 60, 0.125, true, 8.5 * inch, 11 * inch, 0.5 * inch⟩

/-- A target with distance 100.9 (and otherwise default parameters). -/
def t109 : Target := ⟨100.9, 0.25, 0.125, true, 8.5 * inch, 11 * inch, 0.5 * inch⟩

/-- A concrete stand-in for `canvas.stringWidth` (used to instantiate theorems). -/
def sw0 : String → String → ℝ → ℝ := fun _ _ _ => 0

/-- A concrete stand-in for Python float stringification. -/
def ps0 : ℝ → String := fun _ => ""

end

/-! ### Helper lemmas -/

theorem floor_half_floor (x : ℝ) : ⌊((⌊x⌋ : ℤ) : ℝ) / 2⌋ = ⌊x / 2⌋ := by
  have h1 : ((⌊x / 2⌋ : ℤ) : ℝ) ≤ x / 2 := Int.floor_le _
  have h2 : x / 2 < (⌊x / 2⌋ : ℝ) + 1 := Int.lt_floor_add_one _
  have h3 : (2 * ⌊x / 2⌋ : ℤ) ≤ ⌊x⌋ := Int.le_floor.mpr (by push_cast; linarith)
  have h4 : ((⌊x⌋ : ℤ) : ℝ) ≤ x := Int.floor_le x
  rw [Int.floor_eq_iff]
  constructor
  · have h3' : ((2 * ⌊x / 2⌋ : ℤ) : ℝ) ≤ ((⌊x⌋ : ℤ) : ℝ) := by exact_mod_cast h3
    push_cast at h3'
    linarith
  · linarith

theorem num_rows_eq (pw m gs : ℝ) :
    num_rows pw m gs = ⌊available_width pw m / gs / 2⌋ * 2 := by
  unfold num_rows fdiv
  rw [show ((⌊available_width pw m / gs / 2⌋ : ℤ) : ℝ) * 2 =
      ((⌊available_width pw m / gs / 2⌋ * 2 : ℤ) : ℝ) by push_cast; ring,
    Int.floor_intCast]

theorem num_rows_nonneg (pw m gs : ℝ) (haw : 0 ≤ available_width pw m) (hgs : 0 < gs) :
    0 ≤ num_rows pw m gs := by
  rw [num_rows_eq]
  have h : (0 : ℝ) ≤ available_width pw m / gs / 2 := by positivity
  exact mul_nonneg (Int.floor_nonneg.mpr h) (by norm_num)

theorem grid_fits (pw m gs : ℝ) (hgs : 0 < gs) :
    (num_rows pw m gs : ℝ) * gs ≤ available_width pw m := by
  rw [num_rows_eq]
  push_cast
  have h1 : ((⌊available_width pw m / gs / 2⌋ : ℤ) : ℝ) ≤ available_width pw m / gs / 2 :=
    Int.floor_le _
  have h2 : ((⌊available_width pw m / gs / 2⌋ : ℤ) : ℝ) * 2 ≤ available_width pw m / gs := by
    linarith
  have h3 := mul_le_mul_of_nonneg_right h2 (le_of_lt hgs)
  rwa [div_mul_cancel₀ _ (ne_of_gt hgs)] at h3

theorem minute_of_angle_eq (t : Target) :
    t.minute_of_angle = t.yards * t.MOA * Real.pi / 300 := by
  simp only [Target.minute_of_angle, radians]
  ring

theorem scenario_moa : scenarioT.minute_of_angle = Real.pi / 12 := by
  rw [minute_of_angle_eq]
  norm_num [scenarioT]
  ring

theorem floor_45_pi : ⌊(45 : ℝ) / Real.pi⌋ = 14 := by
  rw [Int.floor_eq_iff]
  constructor
  · push_cast
    rw [le_div_iff Real.pi_pos]
    nlinarith [Real.pi_lt_3141593]
  · push_cast
    rw [div_lt_iff Real.pi_pos]
    nlinarith [Real.pi_gt_three]

theorem scenario_rows_pi :
    num_rows scenarioT.page_width scenarioT.margin (Real.pi / 12) = 28 := by
  rw [num_rows_eq]
  have haw : available_width scenarioT.page_width scenarioT.margin = 7.5 := by
    norm_num [available_width, scenarioT, inch]
  rw [haw, show (7.5 : ℝ) / (Real.pi / 12) / 2 = 45 / Real.pi by
    field_simp
    ring, floor_45_pi]
  norm_num

theorem scenario_rows :
    num_rows scenarioT.page_width scenarioT.margin scenarioT.minute_of_angle = 28 := by
  rw [scenario_moa]
  exact scenario_rows_pi

theorem scenario_x_start : scenarioT.x_start = 306 - 84 * Real.pi := by
  have hg : scenarioT.grid_size = Real.pi / 12 := scenario_moa
  rw [Target.x_start, hg, x_start, grid_width, num_cols, scenario_rows_pi]
  norm_num [available_width, scenarioT, inch]
  ring

theorem scenario_x_center : scenarioT.x_center = 306 := by
  norm_num [Target.x_center, x_center, available_width, scenarioT, inch]

theorem tBig_moa : tBig.minute_of_angle = 2000 * Real.pi := by
  rw [minute_of_angle_eq]
  norm_num [tBig]
  ring

theorem tNeg_moa : tNeg.minute_of_angle = -(Real.pi / 1200) := by
  rw [minute_of_angle_eq]
  norm_num [tNeg]
  ring

theorem tZero_moa : tZero.minute_of_angle = 0 := by
  rw [minute_of_angle_eq]
  norm_num [tZero]

/-! ### Helper lemmas about the naming layer -/

theorem numBody_chars {l : List Char} (h : numBody l = true) :
    ∀ c ∈ l, c.isDigit = true ∨ c = '.' := by
  match l with
  | [] => simp [numBody] at h
  | d :: rest =>
    simp only [numBody, Bool.and_eq_true, List.all_eq_true] at h
    intro c hc
    rcases List.mem_cons.mp hc with rfl | hc'
    · exact Or.inl h.1
    · have h2 := h.2 c hc'
      simpa using h2

theorem dotDash_inj_on {c₁ c₂ : Char} (h₁ : c₁.isDigit = true ∨ c₁ = '.')
    (h₂ : c₂.isDigit = true ∨ c₂ = '.') (h : dotDash c₁ = dotDash c₂) : c₁ = c₂ := by
  unfold dotDash at h
  by_cases e₁ : c₁ = '.'
  · by_cases e₂ : c₂ = '.'
    · rw [e₁, e₂]
    · rw [if_pos e₁, if_neg e₂] at h
      rcases h₂ with hd | hdot
      · rw [← h] at hd
        exact absurd hd (by decide)
      · exact absurd hdot e₂
  · by_cases e₂ : c₂ = '.'
    · rw [if_neg e₁, if_pos e₂] at h
      rcases h₁ with hd | hdot
      · rw [h] at hd
        exact absurd hd (by decide)
      · exact absurd hdot e₁
    · rw [if_neg e₁, if_neg e₂] at h
      exact h

theorem mapDot_inj_body : ∀ l₁ l₂ : List Char,
    (∀ c ∈ l₁, c.isDigit = true ∨ c = '.') → (∀ c ∈ l₂, c.isDigit = true ∨ c = '.') →
    l₁.map dotDash = l₂.map dotDash → l₁ = l₂
  | [], [], _, _, _ => rfl
  | [], _ :: _, _, _, h => by simp at h
  | _ :: _, [], _, _, h => by simp at h
  | c₁ :: l₁, c₂ :: l₂, h₁, h₂, h => by
    simp only [List.map_cons, List.cons.injEq] at h
    have hc := dotDash_inj_on (h₁ c₁ (List.mem_cons_self c₁ l₁))
      (h₂ c₂ (List.mem_cons_self c₂ l₂)) h.1
    have ht := mapDot_inj_body l₁ l₂ (fun c hc => h₁ c (List.mem_cons_of_mem _ hc))
      (fun c hc => h₂ c (List.mem_cons_of_mem _ hc)) h.2
    rw [hc, ht]

theorem isNumList_chars {l : List Char} (h : isNumList l = true) :
    ∀ c ∈ l, c = '-' ∨ c.isDigit = true ∨ c = '.' := by
  cases l with
  | nil => simp [isNumList] at h
  | cons c₀ rest =>
    rw [isNumList] at h
    by_cases e : c₀ = '-'
    · rw [if_pos e] at h
      intro c hc
      rcases List.mem_cons.mp hc with rfl | hc'
      · exact Or.inl e
      · exact Or.inr (numBody_chars h c hc')
    · rw [if_neg e] at h
      intro c hc
      exact Or.inr (numBody_chars h c hc)

theorem isNumList_map_inj : ∀ l₁ l₂ : List Char, isNumList l₁ = true → isNumList l₂ = true →
    l₁.map dotDash = l₂.map dotDash → l₁ = l₂ := by
  intro l₁ l₂ h₁ h₂ h
  cases l₁ with
  | nil => simp [isNumList] at h₁
  | cons c₁ r₁ =>
    cases l₂ with
    | nil => simp [isNumList] at h₂
    | cons c₂ r₂ =>
      rw [isNumList] at h₁ h₂
      simp only [List.map_cons, List.cons.injEq] at h
      by_cases e₁ : c₁ = '-'
      · by_cases e₂ : c₂ = '-'
        · rw [if_pos e₁] at h₁
          rw [if_pos e₂] at h₂
          rw [e₁, e₂,
            mapDot_inj_body r₁ r₂ (numBody_chars h₁) (numBody_chars h₂) h.2]
        · exfalso
          rw [if_neg e₂] at h₂
          have hd₂ : c₂.isDigit = true := by
            simp only [numBody, Bool.and_eq_true] at h₂
            exact h₂.1
          have hc₂ : c₂ ≠ '.' := by
            intro hh
            rw [hh] at hd₂
            exact absurd hd₂ (by decide)
          have hme : dotDash c₁ = dotDash c₂ := h.1
          rw [e₁, dotDash, dotDash, if_neg (by decide), if_neg hc₂] at hme
          rw [← hme] at hd₂
          exact absurd hd₂ (by decide)
      · by_cases e₂ : c₂ = '-'
        · exfalso
          rw [if_neg e₁] at h₁
          have hd₁ : c₁.isDigit = true := by
            simp only [numBody, Bool.and_eq_true] at h₁
            exact h₁.1
          have hc₁ : c₁ ≠ '.' := by
            intro hh
            rw [hh] at hd₁
            exact absurd hd₁ (by decide)
          have hme : dotDash c₁ = dotDash c₂ := h.1
          rw [e₂, dotDash, dotDash, if_neg hc₁, if_neg (by decide)] at hme
          rw [hme] at hd₁
          exact absurd hd₁ (by decide)
        · rw [if_neg e₁] at h₁
          rw [if_neg e₂] at h₂
          exact mapDot_inj_body _ _ (numBody_chars h₁) (numBody_chars h₂)
            (by simp only [List.map_cons, h.1, h.2])

theorem dotDash_ne_y {c : Char} (h : c = '-' ∨ c.isDigit = true ∨ c = '.') :
    dotDash c ≠ 'y' := by
  rcases h with rfl | hd | rfl
  · decide
  · rw [dotDash]
    by_cases e : c = '.'
    · rw [if_pos e]
      decide
    · rw [if_neg e]
      intro hy
      rw [hy] at hd
      exact absurd hd (by decide)
  · decide

theorem isNumList_map_no_y {l : List Char} (h : isNumList l = true) :
    ∀ c ∈ l.map dotDash, c ≠ 'y' := by
  intro c hc
  obtain ⟨c', hc', rfl⟩ := List.mem_map.mp hc
  exact dotDash_ne_y (isNumList_chars h c' hc')

theorem append_sep_inj : ∀ (a₁ a₂ rest b₁ b₂ : List Char),
    (∀ c ∈ a₁, c ≠ 'y') → (∀ c ∈ a₂, c ≠ 'y') →
    a₁ ++ 'y' :: (rest ++ b₁) = a₂ ++ 'y' :: (rest ++ b₂) → a₁ = a₂ ∧ b₁ = b₂
  | [], [], rest, b₁, b₂, _, _, h => by
    simp only [List.nil_append, List.cons.injEq] at h
    exact ⟨rfl, List.append_cancel_left h.2⟩
  | [], c :: a₂, rest, b₁, b₂, _, h₂, h => by
    simp only [List.nil_append, List.cons_append, List.cons.injEq] at h
    exact absurd h.1.symm (h₂ c (List.mem_cons_self c a₂))
  | c :: a₁, [], rest, b₁, b₂, h₁, _, h => by
    simp only [List.nil_append, List.cons_append, List.cons.injEq] at h
    exact absurd h.1 (h₁ c (List.mem_cons_self c a₁))
  | c₁ :: a₁, c₂ :: a₂, rest, b₁, b₂, h₁, h₂, h => by
    simp only [List.cons_append, List.cons.injEq] at h
    obtain ⟨ha, hb⟩ := append_sep_inj a₁ a₂ rest b₁ b₂
      (fun c hc => h₁ c (List.mem_cons_of_mem _ hc))
      (fun c hc => h₂ c (List.mem_cons_of_mem _ hc)) h.2
    exact ⟨by rw [h.1, ha], hb⟩

theorem string_data_inj {s t : String} (h : s.data = t.data) : s = t := by
  cases s
  cases t
  exact congrArg String.mk h

theorem filename_inj {s₁ s₂ t₁ t₂ : String}
    (h₁ : isPyNumRepr s₁ = true) (h₂ : isPyNumRepr s₂ = true)
    (h₃ : isPyNumRepr t₁ = true) (h₄ : isPyNumRepr t₂ = true)
    (h : filename s₁ s₂ = filename t₁ t₂) : s₁ = t₁ ∧ s₂ = t₂ := by
  have hd := congrArg String.data h
  simp only [filename, String.data_append, pyReplaceDot, List.append_assoc] at hd
  obtain ⟨ha, hb⟩ := append_sep_inj (List.map dotDash s₁.data) (List.map dotDash t₁.data)
    (['a', 'r', 'd', 's', '_'])
    (List.map dotDash s₂.data ++ ['m', 'o', 'a', '.', 'p', 'd', 'f'])
    (List.map dotDash t₂.data ++ ['m', 'o', 'a', '.', 'p', 'd', 'f'])
    (isNumList_map_no_y h₁) (isNumList_map_no_y h₃) hd
  have hb' : List.map dotDash s₂.data = List.map dotDash t₂.data :=
    List.append_cancel_right hb
  exact ⟨string_data_inj (isNumList_map_inj _ _ h₁ h₃ ha),
    string_data_inj (isNumList_map_inj _ _ h₂ h₄ hb')⟩

theorem pyTrunc_100 : pyTrunc (100 : ℝ) = 100 := by
  rw [pyTrunc, if_pos (by norm_num : (0 : ℝ) ≤ 100),
    show (100 : ℝ) = ((100 : ℤ) : ℝ) by norm_num, Int.floor_intCast]

theorem pyTrunc_1009 : pyTrunc (100.9 : ℝ) = 100 := by
  rw [pyTrunc, if_pos (by norm_num : (0 : ℝ) ≤ 100.9), Int.floor_eq_iff]
  constructor
  · push_cast
    norm_num
  · push_cast
    norm_num

/-! ### Claims -/

/-- C1 (corrected).  The claim asserts the computed cell size equals the exact
trigonometric form `2 * (distance*36) * tan(radians((MOA/60)/2))`.  The code
(`Target._minute_of_angle`) instead computes the linear approximation
`inches * radians(moa_per_degree / 2) * 2`, with no `tan`; the two differ at every
valid input (see the counterexample).  Amended statement, proved here: for every
distance > 0 and angular increment > 0 the computed cell size equals
`2 * (distance*36) * radians((MOA/60)/2)`. -/
theorem C1_cellsize_linear (t : Target) (hy : 0 < t.yards) (hm : 0 < t.MOA) :
    t.minute_of_angle = 2 * (t.yards * 36) * radians ((t.MOA / 60) / 2) := by
  simp only [Target.minute_of_angle]
  ring

/-- C1 witness: the amended formula instantiated at `distance=100, MOA=0.25`. -/
theorem C1_witness :
    (0 : ℝ) < scenarioT.yards ∧ (0 : ℝ) < scenarioT.MOA ∧
      scenarioT.minute_of_angle =
        2 * (scenarioT.yards * 36) * radians ((scenarioT.MOA / 60) / 2) :=
  ⟨by norm_num [scenarioT], by norm_num [scenarioT],
    C1_cellsize_linear scenarioT (by norm_num [scenarioT]) (by norm_num [scenarioT])⟩

/-- C1 counterexample: at `distance=100, MOA=0.25` the code's cell size (π/12) is
not the claimed exact trigonometric chord, since `tan x > x` on `(0, π/2)`. -/
theorem C1_counterexample :
    scenarioT.minute_of_angle ≠
      2 * ((100 : ℝ) * 36) * Real.tan (radians ((0.25 / 60) / 2)) := by
  rw [scenario_moa, show radians ((0.25 / 60) / 2) = Real.pi / 86400 by rw [radians]; ring]
  have h0 : 0 < Real.pi / 86400 := by positivity
  have h2 : Real.pi / 86400 < Real.pi / 2 :=
    div_lt_div_of_pos_left Real.pi_pos (by norm_num) (by norm_num)
  intro h
  linarith [Real.lt_tan h0 h2]

/-- C4 (confirmed).  Under the stated preconditions the layout yields
`rowCount = colCount`, both even and non-negative, equal to
`floor(floor(printableWidth / cellSize) / 2) * 2` derived from the printable
width, and that count scales both the grid width and the grid height. -/
theorem C4_layout_square (pw ph m gs : ℝ) (hm : 2 * m < min pw ph) (hgs : 0 < gs) :
    num_rows pw m gs = num_cols pw m gs ∧
    Even (num_rows pw m gs) ∧
    0 ≤ num_rows pw m gs ∧
    num_rows pw m gs = ⌊((⌊available_width pw m / gs⌋ : ℤ) : ℝ) / 2⌋ * 2 ∧
    grid_width pw m gs = (num_cols pw m gs : ℝ) * gs ∧
    grid_height pw m gs = (num_rows pw m gs : ℝ) * gs := by
  have hmw : 2 * m < pw := lt_of_lt_of_le hm (min_le_left _ _)
  have haw : 0 < available_width pw m := by
    rw [available_width, inch]
    exact div_pos (by linarith) (by norm_num)
  refine ⟨rfl, ?_, num_rows_nonneg pw m gs haw.le hgs, ?_, rfl, rfl⟩
  · rw [num_rows_eq]
    exact ⟨⌊available_width pw m / gs / 2⌋, by ring⟩
  · rw [num_rows_eq, floor_half_floor]

/-- C4 witness: the layout invariants at a concrete page and cell size. -/
theorem C4_witness :
    2 * (36 : ℝ) < min 612 792 ∧ (0 : ℝ) < 1 ∧
      (num_rows 612 36 1 = num_cols 612 36 1 ∧
       Even (num_rows 612 36 1) ∧
       0 ≤ num_rows 612 36 1 ∧
       num_rows 612 36 1 = ⌊((⌊available_width 612 36 / 1⌋ : ℤ) : ℝ) / 2⌋ * 2 ∧
       grid_width 612 36 1 = (num_cols 612 36 1 : ℝ) * 1 ∧
       grid_height 612 36 1 = (num_rows 612 36 1 : ℝ) * 1) :=
  ⟨lt_min (by norm_num) (by norm_num), by norm_num,
    C4_layout_square 612 792 36 1 (lt_min (by norm_num) (by norm_num)) (by norm_num)⟩

/-- C5 (corrected).  The claim asserts the grid never overlaps the margin on either
axis.  This holds unconditionally on the x-axis, but on the y-axis only when the
width-derived grid also fits vertically; for a landscape page it fails (see the
counterexample).  Amended statement, proved here: under the claim's preconditions
the x-axis containment always holds, and the y-axis containment holds whenever
`pageWidth ≤ pageHeight`. -/
theorem C5_grid_in_margins (pw ph m gs : ℝ) (hpw : 0 < pw) (hph : 0 < ph)
    (hm : 2 * m < min pw ph) (hgs : 0 < gs) :
    (m ≤ x_start pw m gs ∧ x_start pw m gs + grid_width pw m gs * inch ≤ pw - m) ∧
    (pw ≤ ph → m ≤ y_start pw ph m gs ∧
      y_start pw ph m gs + grid_height pw m gs * inch ≤ ph - m) := by
  have hmw : 2 * m < pw := lt_of_lt_of_le hm (min_le_left _ _)
  have haw : 0 < available_width pw m := by
    rw [available_width, inch]
    exact div_pos (by linarith) (by norm_num)
  have hnn : 0 ≤ (num_rows pw m gs : ℝ) := by
    exact_mod_cast num_rows_nonneg pw m gs haw.le hgs
  have hfit : (num_rows pw m gs : ℝ) * gs ≤ available_width pw m := grid_fits pw m gs hgs
  have hawi : available_width pw m * inch = pw - 2 * m := by
    rw [available_width, inch]
    field_simp
  have hgww : grid_width pw m gs * inch ≤ pw - 2 * m := by
    rw [← hawi, grid_width, num_cols]
    exact mul_le_mul_of_nonneg_right hfit (by rw [inch]; norm_num)
  have hgwi0 : 0 ≤ grid_width pw m gs * inch := by
    rw [grid_width, num_cols]
    exact mul_nonneg (mul_nonneg hnn hgs.le) (by rw [inch]; norm_num)
  constructor
  · constructor
    · rw [x_start]
      linarith
    · rw [x_start]
      linarith
  · intro hpwph
    have hah : available_height ph m * inch = ph - 2 * m := by
      rw [available_height, inch]
      field_simp
    have hghh : grid_height pw m gs * inch ≤ ph - 2 * m := by
      rw [grid_height]
      have h1 : (num_rows pw m gs : ℝ) * gs * inch ≤ available_width pw m * inch :=
        mul_le_mul_of_nonneg_right hfit (by rw [inch]; norm_num)
      rw [hawi] at h1
      linarith
    have hgh0 : 0 ≤ grid_height pw m gs * inch := by
      rw [grid_height]
      exact mul_nonneg (mul_nonneg hnn hgs.le) (by rw [inch]; norm_num)
    constructor
    · rw [y_start]
      linarith
    · rw [y_start]
      linarith

/-- C5 witness: containment on both axes for the portrait default page. -/
theorem C5_witness :
    (0 : ℝ) < 612 ∧ (0 : ℝ) < 792 ∧ 2 * (36 : ℝ) < min 612 792 ∧ (0 : ℝ) < 1 ∧
      (36 ≤ x_start 612 36 1 ∧ x_start 612 36 1 + grid_width 612 36 1 * inch ≤ 612 - 36) ∧
      (36 ≤ y_start 612 792 36 1 ∧
        y_start 612 792 36 1 + grid_height 612 36 1 * inch ≤ 792 - 36) :=
  ⟨by norm_num, by norm_num, lt_min (by norm_num) (by norm_num), by norm_num,
    (C5_grid_in_margins 612 792 36 1 (by norm_num) (by norm_num)
      (lt_min (by norm_num) (by norm_num)) (by norm_num)).1,
    (C5_grid_in_margins 612 792 36 1 (by norm_num) (by norm_num)
      (lt_min (by norm_num) (by norm_num)) (by norm_num)).2 (by norm_num)⟩

/-- C5 counterexample: on a landscape page (792 × 612, margin 36, cell size 1) all
claimed preconditions hold, yet the grid origin lies below the bottom margin on
the y-axis (`y_start = -54 < 36`): the width-derived count overflows the height. -/
theorem C5_counterexample :
    (0 : ℝ) < 792 ∧ (0 : ℝ) < 612 ∧ 2 * (36 : ℝ) < min 792 612 ∧ (0 : ℝ) < 1 ∧
      y_start 792 612 36 1 < 36 := by
  refine ⟨by norm_num, by norm_num, lt_min (by norm_num) (by norm_num), by norm_num, ?_⟩
  have h10 : num_rows 792 36 1 = 10 := by
    rw [num_rows_eq]
    rw [show available_width 792 36 / 1 / 2 = 5 by rw [available_width, inch]; norm_num]
    rw [show ⌊(5 : ℝ)⌋ = 5 by rw [show (5 : ℝ) = ((5 : ℤ) : ℝ) by norm_num, Int.floor_intCast]]
    norm_num
  rw [y_start, grid_height, h10, available_height, inch]
  push_cast
  norm_num

/-- C9 (corrected).  For the scenario `distance=100, MOA=0.25, page 612×792,`
`margin=36` the claim gives `cellSize ≈ 0.131`; the code computes `π/12 ≈ 0.2618`
(and even the spec's exact trigonometric form gives ≈ 0.2618, twice the claimed
value).  Amended statement, proved here: `cellSize = π/12` is within `0.001` of
`0.262`, the row and column counts are `28` (equal, even, positive), and the
derived name embeds `100` and `0-25`. -/
theorem C9_scenario :
    |scenarioT.minute_of_angle - 0.262| < 0.001 ∧
    num_rows scenarioT.page_width scenarioT.margin scenarioT.minute_of_angle = 28 ∧
    num_cols scenarioT.page_width scenarioT.margin scenarioT.minute_of_angle = 28 ∧
    Even (num_rows scenarioT.page_width scenarioT.margin scenarioT.minute_of_angle) ∧
    0 < num_rows scenarioT.page_width scenarioT.margin scenarioT.minute_of_angle ∧
    filename "100" "0.25" = "100" ++ "yards_" ++ "0-25" ++ "moa.pdf" := by
  refine ⟨?_, scenario_rows, ?_, ?_, ?_, by decide⟩
  · rw [scenario_moa, abs_sub_lt_iff]
    constructor <;> nlinarith [Real.pi_gt_3141592, Real.pi_lt_3141593]
  · rw [num_cols]
    exact scenario_rows
  · rw [scenario_rows]
    decide
  · rw [scenario_rows]
    decide

/-- C9 counterexample: the code's cell size for the scenario is not within `0.1`
of the claimed `0.131` (it is `π/12 ≈ 0.2618`). -/
theorem C9_counterexample : ¬ |scenarioT.minute_of_angle - 0.131| < 0.1 := by
  rw [scenario_moa, abs_sub_lt_iff]
  intro h
  nlinarith [Real.pi_gt_three, h.1]

/-- C10 (confirmed).  The title set by `create_target` embeds `int(yards)`
(truncation toward zero), so any two distances with equal truncation give the
same title (e.g. 100 and 100.9), while their derived file names differ; the
angular increment appears in the title as its `str` rendering, untruncated. -/
theorem C10_title :
    (∀ (pyStr : ℝ → String) (t u : Target), t.MOA = u.MOA →
        pyTrunc t.yards = pyTrunc u.yards → titleStr pyStr t = titleStr pyStr u) ∧
    pyTrunc (100 : ℝ) = pyTrunc (100.9 : ℝ) ∧
    filename "100.0" "0.25" ≠ filename "100.9" "0.25" ∧
    (∀ (pyStr : ℝ → String) (t : Target),
      titleStr pyStr t =
        ("Target - " ++ toString (pyTrunc t.yards) ++ " yards - ") ++ pyStr t.MOA ++
          " MOA per click") := by
  refine ⟨?_, ?_, by decide, ?_⟩
  · intro ps t u hm hy
    rw [titleStr, titleStr, hm, hy]
  · rw [pyTrunc_100, pyTrunc_1009]
  · intro ps t
    rfl

/-- C10 witness: distances 100 and 100.9 (equal truncation) give the same title. -/
theorem C10_witness :
    scenarioT.MOA = t109.MOA ∧ pyTrunc scenarioT.yards = pyTrunc t109.yards ∧
      titleStr ps0 scenarioT = titleStr ps0 t109 := by
  have hy : pyTrunc scenarioT.yards = pyTrunc t109.yards := by
    rw [show scenarioT.yards = (100 : ℝ) from rfl, show t109.yards = (100.9 : ℝ) from rfl,
      pyTrunc_100, pyTrunc_1009]
  exact ⟨rfl, hy, C10_title.1 ps0 scenarioT t109 rfl hy⟩

/-- C2 (corrected).  The claim requires an `InvalidParameter` failure before any
drawing for `distance ≤ 0` or `angularIncrement ≤ 0`.  The code performs no
validation at all.  Amended statement, proved here: (1) for a negative distance
and positive increment the render completes and the document is saved; (2) when
the cell size is zero (in particular for `distance = 0`, part 3) the render fails
only at the `available_width / grid_size` division (`ZeroDivisionError`, not an
`InvalidParameter`), after the caption has already been drawn, and no save
occurs. -/
theorem C2_no_validation :
    (∀ (sw : String → String → ℝ → ℝ) (pyStr fmt3 : ℝ → String) (t : Target),
        t.yards < 0 → 0 < t.MOA →
        (t.create_target sw pyStr fmt3).saved = true ∧
        DrawCmd.save ∈ (t.create_target sw pyStr fmt3).cmds) ∧
    (∀ (sw : String → String → ℝ → ℝ) (pyStr fmt3 : ℝ → String) (t : Target),
        t.minute_of_angle = 0 →
        (t.create_target sw pyStr fmt3).saved = false ∧
        DrawCmd.save ∉ (t.create_target sw pyStr fmt3).cmds ∧
        DrawCmd.drawString
          (t.page_width / 2 - sw (captionText pyStr fmt3 t) "Helvetica" 12 / 2)
          (0.5 * inch - 12 / 3) (captionText pyStr fmt3 t) ∈
          (t.create_target sw pyStr fmt3).cmds) ∧
    (∀ t : Target, t.yards = 0 → t.minute_of_angle = 0) := by
  refine ⟨?_, ?_, ?_⟩
  · intro sw ps f3 t hy hm
    have hne : t.minute_of_angle ≠ 0 := by
      rw [minute_of_angle_eq]
      have h1 : t.yards * t.MOA < 0 := mul_neg_of_neg_of_pos hy hm
      have h2 : t.yards * t.MOA * Real.pi < 0 := mul_neg_of_neg_of_pos h1 Real.pi_pos
      exact ne_of_lt (div_neg_of_neg_of_pos h2 (by norm_num))
    rw [Target.create_target, if_neg hne]
    exact ⟨rfl, by simp⟩
  · intro sw ps f3 t h0
    rw [Target.create_target, if_pos h0]
    refine ⟨rfl, ?_, ?_⟩
    · simp [preCmds, draw_centered_text]
    · simp [preCmds, draw_centered_text]
  · intro t hy
    rw [minute_of_angle_eq, hy]
    ring

/-- C2 witness: the amended behaviour at `distance = -1` and at `distance = 0`. -/
theorem C2_witness :
    (tNeg.yards < 0 ∧ 0 < tNeg.MOA ∧
      ((tNeg.create_target sw0 ps0 ps0).saved = true ∧
        DrawCmd.save ∈ (tNeg.create_target sw0 ps0 ps0).cmds)) ∧
    (tZero.minute_of_angle = 0 ∧
      ((tZero.create_target sw0 ps0 ps0).saved = false ∧
        DrawCmd.save ∉ (tZero.create_target sw0 ps0 ps0).cmds ∧
        DrawCmd.drawString
          (tZero.page_width / 2 - sw0 (captionText ps0 ps0 tZero) "Helvetica" 12 / 2)
          (0.5 * inch - 12 / 3) (captionText ps0 ps0 tZero) ∈
          (tZero.create_target sw0 ps0 ps0).cmds)) := by
  constructor
  · exact ⟨by norm_num [tNeg], by norm_num [tNeg],
      C2_no_validation.1 sw0 ps0 ps0 tNeg (by norm_num [tNeg]) (by norm_num [tNeg])⟩
  · exact ⟨tZero_moa, C2_no_validation.2.1 sw0 ps0 ps0 tZero tZero_moa⟩

/-- C2 counterexample: at `distance = -1 ≤ 0` (default increment 0.25) the render
does not fail at all — it completes and saves the document. -/
theorem C2_counterexample :
    tNeg.yards ≤ 0 ∧ (tNeg.create_target sw0 ps0 ps0).saved = true ∧
      DrawCmd.save ∈ (tNeg.create_target sw0 ps0 ps0).cmds := by
  have hne : tNeg.minute_of_angle ≠ 0 := by
    rw [tNeg_moa]
    simp [Real.pi_ne_zero]
  refine ⟨by norm_num [tNeg], ?_, ?_⟩
  · rw [Target.create_target, if_neg hne]
  · rw [Target.create_target, if_neg hne]
    simp

/-- C3 (corrected).  The claim says `render` persists via the canvas and returns
the derived document name.  `create_target` does call `pdf.save()` last, and the
canvas was opened (at construction) under the NamingPolicy-derived name when no
explicit name is given, but the method is `-> None`: it returns nothing, not the
name.  Amended statement, proved here: for any target with nonzero cell size the
render saves (with `save` as final command) and returns `None`; and the
constructor-derived output name is exactly `filename`. -/
theorem C3_render_persists :
    (∀ (sw : String → String → ℝ → ℝ) (pyStr fmt3 : ℝ → String) (t : Target),
        t.minute_of_angle ≠ 0 →
        (t.create_target sw pyStr fmt3).saved = true ∧
        (∃ l, (t.create_target sw pyStr fmt3).cmds = l ++ [DrawCmd.save]) ∧
        (t.create_target sw pyStr fmt3).ret = none) ∧
    (∀ yardsStr moaStr, initFilename false none yardsStr moaStr = filename yardsStr moaStr) := by
  refine ⟨?_, fun _ _ => rfl⟩
  intro sw ps f3 t hne
  rw [Target.create_target, if_neg hne]
  exact ⟨rfl, ⟨_, rfl⟩, rfl⟩

/-- C3 witness: the amended behaviour at the scenario target. -/
theorem C3_witness :
    scenarioT.minute_of_angle ≠ 0 ∧
      ((scenarioT.create_target sw0 ps0 ps0).saved = true ∧
       (∃ l, (scenarioT.create_target sw0 ps0 ps0).cmds = l ++ [DrawCmd.save]) ∧
       (scenarioT.create_target sw0 ps0 ps0).ret = none) := by
  have hne : scenarioT.minute_of_angle ≠ 0 := by
    rw [scenario_moa]
    positivity
  exact ⟨hne, C3_render_persists.1 sw0 ps0 ps0 scenarioT hne⟩

/-- C3 counterexample: a successful scenario render persists the document but its
return value is `None`, not the NamingPolicy-derived name. -/
theorem C3_counterexample :
    (scenarioT.create_target sw0 ps0 ps0).saved = true ∧
      (scenarioT.create_target sw0 ps0 ps0).ret ≠ some (filename "100" "0.25") := by
  have hne : scenarioT.minute_of_angle ≠ 0 := by
    rw [scenario_moa]
    positivity
  rw [Target.create_target, if_neg hne]
  exact ⟨rfl, by simp⟩

/-- C6 (corrected).  When the cell size exceeds the printable width the count is
`0` and the render still succeeds with the caption present, as claimed — but the
grid-line loops run `range(num_rows + 1)`, so one horizontal and one vertical
line command (of zero length, since the grid extent is 0) are still emitted,
rather than the claimed zero grid lines.  Amended statement, proved here. -/
theorem C6_degenerate (sw : String → String → ℝ → ℝ) (pyStr fmt3 : ℝ → String)
    (t : Target) (h0 : 0 < available_width t.page_width t.margin)
    (hbig : available_width t.page_width t.margin < t.minute_of_angle) :
    num_rows t.page_width t.margin t.minute_of_angle = 0 ∧
    grid_width t.page_width t.margin t.minute_of_angle = 0 ∧
    (t.create_target sw pyStr fmt3).saved = true ∧
    (hLines t.page_width t.page_height t.margin t.minute_of_angle).length = 1 ∧
    (vLines t.page_width t.page_height t.margin t.minute_of_angle).length = 1 ∧
    DrawCmd.drawString
      (t.page_width / 2 - sw (captionText pyStr fmt3 t) "Helvetica" 12 / 2)
      (0.5 * inch - 12 / 3) (captionText pyStr fmt3 t) ∈
      (t.create_target sw pyStr fmt3).cmds := by
  have hgs : 0 < t.minute_of_angle := lt_trans h0 hbig
  have hr0 : num_rows t.page_width t.margin t.minute_of_angle = 0 := by
    rw [num_rows_eq]
    have h1 : available_width t.page_width t.margin / t.minute_of_angle < 1 :=
      (div_lt_one hgs).mpr hbig
    have h2 : 0 < available_width t.page_width t.margin / t.minute_of_angle :=
      div_pos h0 hgs
    rw [Int.floor_eq_zero_iff.mpr (Set.mem_Ico.mpr ⟨by linarith, by linarith⟩)]
    norm_num
  refine ⟨hr0, ?_, ?_, ?_, ?_, ?_⟩
  · rw [grid_width, num_cols, hr0]
    norm_num
  · rw [Target.create_target, if_neg (ne_of_gt hgs)]
  · simp only [hLines, hr0, List.length_map, List.length_range]
    rfl
  · simp only [vLines, num_cols, hr0, List.length_map, List.length_range]
    rfl
  · rw [Target.create_target, if_neg (ne_of_gt hgs)]
    simp [preCmds, draw_centered_text]

/-- C6 witness: the degenerate-grid behaviour at `distance=10000, MOA=60`
(cell size `2000π` inches against a printable width of 7.5 inches). -/
theorem C6_witness :
    0 < available_width tBig.page_width tBig.margin ∧
    available_width tBig.page_width tBig.margin < tBig.minute_of_angle ∧
    (num_rows tBig.page_width tBig.margin tBig.minute_of_angle = 0 ∧
     grid_width tBig.page_width tBig.margin tBig.minute_of_angle = 0 ∧
     (tBig.create_target sw0 ps0 ps0).saved = true ∧
     (hLines tBig.page_width tBig.page_height tBig.margin tBig.minute_of_angle).length = 1 ∧
     (vLines tBig.page_width tBig.page_height tBig.margin tBig.minute_of_angle).length = 1 ∧
     DrawCmd.drawString
       (tBig.page_width / 2 - sw0 (captionText ps0 ps0 tBig) "Helvetica" 12 / 2)
       (0.5 * inch - 12 / 3) (captionText ps0 ps0 tBig) ∈
       (tBig.create_target sw0 ps0 ps0).cmds) := by
  have haw : available_width tBig.page_width tBig.margin = 7.5 := by
    norm_num [tBig, available_width, inch]
  have h0 : 0 < available_width tBig.page_width tBig.margin := by
    rw [haw]
    norm_num
  have hbig : available_width tBig.page_width tBig.margin < tBig.minute_of_angle := by
    rw [haw, tBig_moa]
    nlinarith [Real.pi_gt_three]
  exact ⟨h0, hbig, C6_degenerate sw0 ps0 ps0 tBig h0 hbig⟩

/-- C6 counterexample: a cell size (8 inches) exceeding the printable width
(7.5 inches) yields count 0, yet the horizontal grid-line loop still emits one
(zero-length) line command — not the claimed zero grid lines. -/
theorem C6_counterexample :
    available_width 612 36 < 8 ∧ num_rows 612 36 8 = 0 ∧
      (hLines 612 792 36 8).length = 1 := by
  have haw : available_width 612 36 = 7.5 := by
    rw [available_width, inch]
    norm_num
  have hr0 : num_rows 612 36 8 = 0 := by
    rw [num_rows_eq, haw]
    rw [Int.floor_eq_zero_iff.mpr (Set.mem_Ico.mpr ⟨by norm_num, by norm_num⟩)]
    norm_num
  refine ⟨by rw [haw]; norm_num, hr0, ?_⟩
  simp only [hLines, hr0, List.length_map, List.length_range]
  rfl

/-- C7 (corrected).  The four quadrant labels are drawn in gray at size 72 via
the centered-text computation, but at the midpoints between the printable-area
center and the corners of the GRID rectangle (`x_start`/`y_start` based), not the
corners of the printable area as claimed (see the counterexample).  Amended
statement, proved here: the label commands equal centered-text draws at the
midpoints of the center and the grid corners, and they appear in the output
(immediately before `save`) whenever the overlay is enabled. -/
theorem C7_labels (sw : String → String → ℝ → ℝ) (t : Target) :
    (labelCmds sw t =
      draw_centered_text sw "R/U" ((t.x_center + t.x_start) / 2)
        ((t.y_center + t.y_start) / 2) "Helvetica" 72 "gray" ++
      draw_centered_text sw "R/D" ((t.x_center + t.x_start) / 2)
        ((t.y_center + (t.y_start + t.grid_height * inch)) / 2) "Helvetica" 72 "gray" ++
      draw_centered_text sw "L/U" ((t.x_center + (t.x_start + t.grid_width * inch)) / 2)
        ((t.y_center + t.y_start) / 2) "Helvetica" 72 "gray" ++
      draw_centered_text sw "L/D" ((t.x_center + (t.x_start + t.grid_width * inch)) / 2)
        ((t.y_center + (t.y_start + t.grid_height * inch)) / 2) "Helvetica" 72 "gray") ∧
    (t.scope_adjustment_text = true → t.minute_of_angle ≠ 0 →
      ∀ pyStr fmt3 : ℝ → String,
        ∃ l, (t.create_target sw pyStr fmt3).cmds = l ++ labelCmds sw t ++ [DrawCmd.save]) := by
  constructor
  · have hx : t.x_center - t.x_start = t.grid_width * inch / 2 := by
      rw [Target.x_center, Target.x_start, x_center, x_start, Target.grid_width]
      ring
    have hy' : t.y_center - t.y_start = t.grid_height * inch / 2 := by
      rw [Target.y_center, Target.y_start, y_center, y_start, Target.grid_height]
      ring
    have e1 : t.x_center - (t.x_center - t.x_start) / 2 = (t.x_center + t.x_start) / 2 := by
      ring
    have e2 : t.y_center - (t.y_center - t.y_start) / 2 = (t.y_center + t.y_start) / 2 := by
      ring
    have e3 : t.y_center + (t.y_center - t.y_start) / 2 =
        (t.y_center + (t.y_start + t.grid_height * inch)) / 2 := by
      linear_combination hy'
    have e4 : t.x_center + (t.x_center - t.x_start) / 2 =
        (t.x_center + (t.x_start + t.grid_width * inch)) / 2 := by
      linear_combination hx
    unfold labelCmds
    rw [e1, e2, e3, e4]
  · intro hscope hne ps f3
    rw [Target.create_target, if_neg hne, hscope]
    exact ⟨_, rfl⟩

/-- C7 witness: the amended label behaviour at the scenario target. -/
theorem C7_witness :
    scenarioT.scope_adjustment_text = true ∧ scenarioT.minute_of_angle ≠ 0 ∧
      (∃ l, (scenarioT.create_target sw0 ps0 ps0).cmds =
        l ++ labelCmds sw0 scenarioT ++ [DrawCmd.save]) := by
  have hne : scenarioT.minute_of_angle ≠ 0 := by
    rw [scenario_moa]
    positivity
  exact ⟨rfl, hne, (C7_labels sw0 scenarioT).2 rfl hne ps0 ps0⟩

/-- C7 counterexample: at the scenario target the x-coordinate actually passed to
the centered-text helper for "R/U" differs from the claimed midpoint between the
center and the printable-area corner (`x = margin`), because the grid origin
`x_start = 306 - 84π ≠ 36 = margin`. -/
theorem C7_counterexample :
    scenarioT.x_center - (scenarioT.x_center - scenarioT.x_start) / 2 ≠
      (scenarioT.x_center + scenarioT.margin) / 2 := by
  rw [scenario_x_start, scenario_x_center,
    show scenarioT.margin = (36 : ℝ) by norm_num [scenarioT, inch]]
  intro h
  nlinarith [Real.pi_lt_3141593]

/-- C8 (confirmed).  `_filename` is a pure function of the rendered inputs, embeds
both values with `.` replaced by `-` followed by the fixed `moa.pdf` suffix, and
distinct `(distance, angularIncrement)` pairs differing in value produce distinct
names: for simple decimal renderings, differing values force differing renderings
(by congruence of `decVal`), and the name map is injective on such renderings. -/
theorem C8_naming (s₁ s₂ t₁ t₂ : String)
    (h₁ : isPyNumRepr s₁ = true) (h₂ : isPyNumRepr s₂ = true)
    (h₃ : isPyNumRepr t₁ = true) (h₄ : isPyNumRepr t₂ = true)
    (hv : decVal s₁ ≠ decVal t₁ ∨ decVal s₂ ≠ decVal t₂) :
    filename s₁ s₂ ≠ filename t₁ t₂ ∧
    filename s₁ s₂ = pyReplaceDot s₁ ++ "yards_" ++ pyReplaceDot s₂ ++ "moa.pdf" := by
  refine ⟨?_, rfl⟩
  intro h
  obtain ⟨ha, hb⟩ := filename_inj h₁ h₂ h₃ h₄ h
  rcases hv with hv | hv
  · exact hv (by rw [ha])
  · exact hv (by rw [hb])

/-- C8 witness: `(100, 0.25)` and `(100, 0.5)` differ in value and get distinct
names. -/
theorem C8_witness :
    isPyNumRepr "100" = true ∧ isPyNumRepr "0.25" = true ∧ isPyNumRepr "0.5" = true ∧
    decVal "0.25" ≠ decVal "0.5" ∧
    (filename "100" "0.25" ≠ filename "100" "0.5" ∧
      filename "100" "0.25" =
        pyReplaceDot "100" ++ "yards_" ++ pyReplaceDot "0.25" ++ "moa.pdf") := by
  have hval : decVal "0.25" ≠ decVal "0.5" := by
    simp +decide [decVal, digitsToNat]
    norm_num
  refine ⟨by decide, by decide, by decide, hval, ?_⟩
  exact C8_naming "100" "0.25" "100" "0.5" (by decide) (by decide) (by decide) (by decide)
    (Or.inr hval)

end TargetGen
